import Mathlib

/-!
Verification of the blockchain-to-relational-store
synchronization engine: the webhook upsert handlers and batch endpoint
(`src/controllers/syncController.ts`), the polling service
(`src/services/autoSync.ts`), and the QRIS settlement / chain-writer path
(`src/controllers/contributionController.ts`).

The relational store is modelled as lists of row records, one list per
table; `CURRENT_TIMESTAMP` is modelled as an explicit `now : Nat` tick
passed to each operation.  JavaScript field access on request bodies is
modelled with `Option` (a missing field is `none`) together with the
JavaScript truthiness tests the handlers actually perform.
-/

set_option autoImplicit false

namespace CrowdfundBE

/-! ### JavaScript-flavoured primitives -/

/-- JS truthiness of a possibly-missing string: `!s` is true when the field
is absent (`undefined`) or the empty string. -/
def jsFalsyS : Option String → Bool
  | none => true
  | some s => s == ""

/-- JS truthiness of a possibly-missing number: `!n` is true when the field
is absent or the number `0`. -/
def jsFalsyN : Option Nat → Bool
  | none => true
  | some n => n == 0

/-- JS `x || d` on a possibly-missing string field. -/
def jsOrS (o : Option String) (d : String) : String :=
  match o with
  | none => d
  | some s => if s == "" then d else s

/-- Character-list test: `p` occurs at the start of `s`. -/
def listHasPre : List Char → List Char → Bool
  | [], _ => true
  | _ :: _, [] => false
  | p :: ps, c :: cs => p == c && listHasPre ps cs

/-- Test that `p` occurs at the start of `s`; models the SQL pattern
match `LIKE p%` whose only wildcard is the trailing `%`. -/
def strHasPre (p s : String) : Bool :=
  listHasPre p.toList s.toList

/-- Substring test on character lists, models JS `String.includes`. -/
def listIncl (sub : List Char) : List Char → Bool
  | [] => listHasPre sub []
  | c :: cs => listHasPre sub (c :: cs) || listIncl sub cs

/-- JS `s.includes(sub)`. -/
def strIncl (sub s : String) : Bool :=
  listIncl sub.toList s.toList

/-- Split a character list on a separator character, models JS
`String.split` (always returns at least one piece). -/
def splitOnChar (sep : Char) : List Char → List (List Char)
  | [] => [[]]
  | c :: cs =>
    let r := splitOnChar sep cs
    if c == sep then [] :: r
    else
      match r with
      | [] => [[c]]
      | h :: t => (c :: h) :: t

/-- Digits-to-number accumulator for `jsParseInt`. -/
def digitsToNat (acc : Nat) : List Char → Nat
  | [] => acc
  | c :: cs => digitsToNat (acc * 10 + (c.toNat - 48)) cs

/-- JS `parseInt` restricted to the decimal order-id components the code
feeds it: parse the leading run of digits, `NaN` (`none`) when there is
none or the component itself is absent. -/
def jsParseInt : Option String → Option Nat
  | none => none
  | some s =>
    let ds := s.toList.takeWhile Char.isDigit
    if ds.isEmpty then none else some (digitsToNat 0 ds)

/-! ### Store rows

One structure per table of the cache schema.  The data model of the spec
(§3) gives Donation optional payment-method and QRIS correlation fields, used
by the fiat-settlement insert in `contributionController.ts`; columns that
are nullable in the schema are `Option` fields. -/

/-- A row of `blockchain_campaigns`. -/
structure CampaignRow where
  id : Nat
  name : String
  creatorName : Option String
  owner : String
  balance : Option String
  targetAmount : String
  creationTime : Nat
  lastSyncedAt : Nat
  deriving Repr, DecidableEq

/-- A row of `blockchain_donations`. -/
structure DonationRow where
  id : String
  campaignId : Nat
  donor : String
  amount : String
  transactionHash : String
  blockNumber : Nat
  timestamp : Nat
  lastSyncedAt : Nat
  paymentMethod : Option String := none
  qrisOrderId : Option String := none
  qrisGrossAmount : Option Nat := none
  deriving Repr, DecidableEq

/-- A row of `blockchain_withdrawals`. -/
structure WithdrawalRow where
  id : String
  campaignId : Nat
  name : Option String
  owner : String
  creatorName : Option String
  amount : String
  transactionHash : String
  blockNumber : Nat
  timestamp : Nat
  lastSyncedAt : Nat
  deriving Repr, DecidableEq

/-- A row of `blockchain_badges`. -/
structure BadgeRow where
  tokenId : Nat
  owner : String
  name : String
  transactionHash : String
  blockNumber : Nat
  timestamp : Nat
  lastSyncedAt : Nat
  deriving Repr, DecidableEq

/-- A row of `sync_status` (one per entity type). -/
structure SyncStatusRow where
  entityType : String
  lastBlockNumber : Nat
  lastSyncedAt : Nat
  totalSynced : Nat
  status : String
  errorMessage : Option String
  deriving Repr, DecidableEq

/-- The relational cache: the four entity tables plus the sync ledger. -/
structure Store where
  campaigns : List CampaignRow
  donations : List DonationRow
  withdrawals : List WithdrawalRow
  badges : List BadgeRow
  syncStatus : List SyncStatusRow
  deriving Repr, DecidableEq

/-! ### Sync-status ledger update

`updateSyncStatus` in `syncController.ts`:
`last_block_number = COALESCE($1, last_block_number)`,
`last_synced_at = CURRENT_TIMESTAMP`, `total_synced = total_synced + 1`,
`status = healthy`, `error_message = NULL` on the row for the entity
type. -/

def updateSyncStatus (rows : List SyncStatusRow) (entityType : String)
    (blockNumber : Option Nat) (now : Nat) : List SyncStatusRow :=
  rows.map fun r =>
    if r.entityType == entityType then
      { r with
        lastBlockNumber := blockNumber.getD r.lastBlockNumber
        lastSyncedAt := now
        totalSynced := r.totalSynced + 1
        status := "healthy"
        errorMessage := none }
    else r

/-- The `sync_status` row for an entity type, as a status query reads it. -/
def findStatus (rows : List SyncStatusRow) (entityType : String) :
    Option SyncStatusRow :=
  rows.find? fun r => r.entityType == entityType

/-! ### Request payloads

Shapes of the JSON bodies the webhook handlers and the poller receive;
every field may be absent. -/

structure CampaignPayload where
  id : Option Nat
  name : Option String
  creatorName : Option String
  owner : Option String
  balance : Option String
  targetAmount : Option String
  creationTime : Option Nat
  deriving Repr, DecidableEq

structure DonationPayload where
  id : Option String
  campaignId : Option Nat
  donor : Option String
  amount : Option String
  transactionHash : Option String
  blockNumber : Option Nat
  timestamp : Option Nat
  deriving Repr, DecidableEq

structure WithdrawalPayload where
  id : Option String
  campaignId : Option Nat
  name : Option String
  owner : Option String
  creatorName : Option String
  amount : Option String
  transactionHash : Option String
  blockNumber : Option Nat
  timestamp : Option Nat
  deriving Repr, DecidableEq

structure BadgePayload where
  tokenId : Option Nat
  owner : Option String
  name : Option String
  transactionHash : Option String
  blockNumber : Option Nat
  timestamp : Option Nat
  deriving Repr, DecidableEq

/-- Response summary of a webhook handler: HTTP status plus message. -/
structure WebhookResult where
  status : Nat
  message : String
  deriving Repr, DecidableEq

/-! ### Table-level operations

The SQL statements of `syncController.ts` / `autoSync.ts`, one definition
per distinct statement shape.  Statements that can violate a constraint
(`NOT NULL` on a missing payload field, the donations→campaigns foreign
key) are `Except`, mirroring a query that throws. -/

/-- SQL `INSERT INTO blockchain_campaigns ... ON CONFLICT (id) DO UPDATE SET
name, creator_name, owner, balance, target_amount, last_synced_at`
(webhook single-campaign path, `syncCampaign`). -/
def dbUpsertCampaignWebhook (rows : List CampaignRow) (r : CampaignRow) :
    List CampaignRow :=
  if rows.any fun old => old.id == r.id then
    rows.map fun old =>
      if old.id == r.id then
        { old with
          name := r.name
          creatorName := r.creatorName
          owner := r.owner
          balance := r.balance
          targetAmount := r.targetAmount
          lastSyncedAt := r.lastSyncedAt }
      else old
  else rows ++ [r]

/-- SQL `ON CONFLICT (id) DO UPDATE SET name, creator_name, balance,
target_amount, last_synced_at` — the campaign upsert of the poller
(`autoSync.ts`); unlike the webhook path it does not update `owner`. -/
def dbUpsertCampaignPoller (rows : List CampaignRow) (r : CampaignRow) :
    List CampaignRow :=
  if rows.any fun old => old.id == r.id then
    rows.map fun old =>
      if old.id == r.id then
        { old with
          name := r.name
          creatorName := r.creatorName
          balance := r.balance
          targetAmount := r.targetAmount
          lastSyncedAt := r.lastSyncedAt }
      else old
  else rows ++ [r]

/-- SQL `ON CONFLICT (id) DO UPDATE SET name, balance, target_amount,
last_synced_at` — the campaign upsert of the batch endpoint (`syncBatch`);
it updates neither `owner` nor `creator_name`. -/
def dbUpsertCampaignBatch (rows : List CampaignRow) (r : CampaignRow) :
    List CampaignRow :=
  if rows.any fun old => old.id == r.id then
    rows.map fun old =>
      if old.id == r.id then
        { old with
          name := r.name
          balance := r.balance
          targetAmount := r.targetAmount
          lastSyncedAt := r.lastSyncedAt }
      else old
  else rows ++ [r]

/-- SQL `INSERT INTO blockchain_donations ... ON CONFLICT (id) DO NOTHING` —
identical statement on the webhook, poller and batch paths.  A conflicting
id is skipped before any constraint on the new row is evaluated; a fresh
row must satisfy the foreign key into `blockchain_campaigns`. -/
def dbInsertDonation (campaigns : List CampaignRow) (rows : List DonationRow)
    (r : DonationRow) : Except String (List DonationRow) :=
  if rows.any fun old => old.id == r.id then .ok rows
  else if campaigns.any fun c => c.id == r.campaignId then .ok (rows ++ [r])
  else .error "violates foreign key constraint"

/-- SQL `INSERT INTO blockchain_withdrawals ... ON CONFLICT (id) DO NOTHING` —
identical on the webhook, poller and batch paths. -/
def dbInsertWithdrawal (campaigns : List CampaignRow)
    (rows : List WithdrawalRow) (r : WithdrawalRow) :
    Except String (List WithdrawalRow) :=
  if rows.any fun old => old.id == r.id then .ok rows
  else if campaigns.any fun c => c.id == r.campaignId then .ok (rows ++ [r])
  else .error "violates foreign key constraint"

/-- SQL `INSERT INTO blockchain_badges ... ON CONFLICT (token_id) DO UPDATE SET
owner, last_synced_at` — the same statement on the webhook, poller and
batch paths: only `owner` and `last_synced_at` change on conflict. -/
def dbUpsertBadge (rows : List BadgeRow) (r : BadgeRow) : List BadgeRow :=
  if rows.any fun old => old.tokenId == r.tokenId then
    rows.map fun old =>
      if old.tokenId == r.tokenId then
        { old with owner := r.owner, lastSyncedAt := r.lastSyncedAt }
      else old
  else rows ++ [r]

/-! ### Webhook handlers (`syncController.ts`) -/

/-- Validation of `syncCampaign`:
`id === undefined || !name || !owner || !targetAmount || !creationTime`. -/
def campaignMissingFields (p : CampaignPayload) : Bool :=
  p.id.isNone || jsFalsyS p.name || jsFalsyS p.owner ||
    jsFalsyS p.targetAmount || jsFalsyN p.creationTime

/-- The row `syncCampaign` submits: `creatorName || ""`, `balance || "0"`,
`last_synced_at = CURRENT_TIMESTAMP`. -/
def campaignRowOfWebhook (p : CampaignPayload) (now : Nat) : CampaignRow where
  id := p.id.getD 0
  name := p.name.getD ""
  creatorName := some (jsOrS p.creatorName "")
  owner := p.owner.getD ""
  balance := some (jsOrS p.balance "0")
  targetAmount := p.targetAmount.getD ""
  creationTime := p.creationTime.getD 0
  lastSyncedAt := now

/-- Handler for `POST /api/sync/campaign`: validate, upsert, update sync
status. -/
def syncCampaign (p : CampaignPayload) (st : Store) (now : Nat) :
    WebhookResult × Store :=
  if campaignMissingFields p then
    (⟨400, "Missing required fields"⟩, st)
  else
    let row := campaignRowOfWebhook p now
    let st1 := { st with campaigns := dbUpsertCampaignWebhook st.campaigns row }
    let ledger := updateSyncStatus st1.syncStatus "campaign" none now
    let st2 := { st1 with syncStatus := ledger }
    (⟨200, "Campaign synced successfully"⟩, st2)

/-- Validation of `syncDonation`: `id === undefined || campaignId ===
undefined || !donor || !amount || !transactionHash || !blockNumber ||
!timestamp` — JS truthiness, so the number `0` and the string `""` count
as missing. -/
def donationMissingFields (p : DonationPayload) : Bool :=
  p.id.isNone || p.campaignId.isNone || jsFalsyS p.donor ||
    jsFalsyS p.amount || jsFalsyS p.transactionHash ||
    jsFalsyN p.blockNumber || jsFalsyN p.timestamp

/-- The row `syncDonation` submits. -/
def donationRowOfWebhook (p : DonationPayload) (now : Nat) : DonationRow where
  id := p.id.getD ""
  campaignId := p.campaignId.getD 0
  donor := p.donor.getD ""
  amount := p.amount.getD ""
  transactionHash := p.transactionHash.getD ""
  blockNumber := p.blockNumber.getD 0
  timestamp := p.timestamp.getD 0
  lastSyncedAt := now

/-- Handler for `POST /api/sync/donation`: validate, insert-if-absent,
update sync status with the block number of the payload; a store error
surfaces as 500
with no sync-status update. -/
def syncDonation (p : DonationPayload) (st : Store) (now : Nat) :
    WebhookResult × Store :=
  if donationMissingFields p then
    (⟨400, "Missing required fields"⟩, st)
  else
    match dbInsertDonation st.campaigns st.donations
        (donationRowOfWebhook p now) with
    | .error e => (⟨500, e⟩, st)
    | .ok rows =>
      let st1 := { st with donations := rows }
      let ledger := updateSyncStatus st1.syncStatus "donation" p.blockNumber now
      let st2 := { st1 with syncStatus := ledger }
      (⟨200, "Donation synced successfully"⟩, st2)

/-- Row for a batch campaign item; `id, name, owner, target_amount,
creation_time` are `NOT NULL` columns, `creator_name` and `balance` are
nullable and submitted raw. -/
def campaignRowOfBatch (p : CampaignPayload) (now : Nat) :
    Except String CampaignRow :=
  match p.id, p.name, p.owner, p.targetAmount, p.creationTime with
  | some id, some name, some owner, some ta, some ct =>
    .ok { id := id, name := name, creatorName := p.creatorName,
          owner := owner, balance := p.balance, targetAmount := ta,
          creationTime := ct, lastSyncedAt := now }
  | _, _, _, _, _ => .error "null value violates not-null constraint"

/-- Row for a batch (or poller) donation item; all seven submitted columns
are `NOT NULL`. -/
def donationRowOfBatch (p : DonationPayload) (now : Nat) :
    Except String DonationRow :=
  match p.id, p.campaignId, p.donor, p.amount, p.transactionHash,
      p.blockNumber, p.timestamp with
  | some id, some cid, some donor, some amount, some tx, some bn, some ts =>
    .ok { id := id, campaignId := cid, donor := donor, amount := amount,
          transactionHash := tx, blockNumber := bn, timestamp := ts,
          lastSyncedAt := now }
  | _, _, _, _, _, _, _ => .error "null value violates not-null constraint"

/-- Row for a batch withdrawal item; `name` and `creator_name` are
nullable, the rest `NOT NULL`. -/
def withdrawalRowOfBatch (p : WithdrawalPayload) (now : Nat) :
    Except String WithdrawalRow :=
  match p.id, p.campaignId, p.owner, p.amount, p.transactionHash,
      p.blockNumber, p.timestamp with
  | some id, some cid, some owner, some amount, some tx, some bn, some ts =>
    .ok { id := id, campaignId := cid, name := p.name, owner := owner,
          creatorName := p.creatorName, amount := amount,
          transactionHash := tx, blockNumber := bn, timestamp := ts,
          lastSyncedAt := now }
  | _, _, _, _, _, _, _ => .error "null value violates not-null constraint"

/-- Row for a batch (or poller) badge item; all submitted columns are
`NOT NULL`. -/
def badgeRowOfBatch (p : BadgePayload) (now : Nat) :
    Except String BadgeRow :=
  match p.tokenId, p.owner, p.name, p.transactionHash, p.blockNumber,
      p.timestamp with
  | some t, some owner, some name, some tx, some bn, some ts =>
    .ok { tokenId := t, owner := owner, name := name, transactionHash := tx,
          blockNumber := bn, timestamp := ts, lastSyncedAt := now }
  | _, _, _, _, _, _ => .error "null value violates not-null constraint"

/-- Body of `POST /api/sync/batch`; each array may be absent (the handler
guards with `campaigns && Array.isArray(campaigns)`). -/
structure BatchBody where
  campaigns : Option (List CampaignPayload) := none
  donations : Option (List DonationPayload) := none
  withdrawals : Option (List WithdrawalPayload) := none
  badges : Option (List BadgePayload) := none
  deriving Repr, DecidableEq

/-- The campaigns loop of `syncBatch`, inside the transaction. -/
def runBatchCampaigns (now : Nat) (rows : List CampaignRow) :
    List CampaignPayload → Except String (List CampaignRow)
  | [] => .ok rows
  | p :: ps =>
    match campaignRowOfBatch p now with
    | .error e => .error e
    | .ok r => runBatchCampaigns now (dbUpsertCampaignBatch rows r) ps

/-- The donations loop of `syncBatch`. -/
def runBatchDonations (campaigns : List CampaignRow) (now : Nat)
    (rows : List DonationRow) :
    List DonationPayload → Except String (List DonationRow)
  | [] => .ok rows
  | p :: ps =>
    match donationRowOfBatch p now with
    | .error e => .error e
    | .ok r =>
      match dbInsertDonation campaigns rows r with
      | .error e => .error e
      | .ok rows1 => runBatchDonations campaigns now rows1 ps

/-- The withdrawals loop of `syncBatch`. -/
def runBatchWithdrawals (campaigns : List CampaignRow) (now : Nat)
    (rows : List WithdrawalRow) :
    List WithdrawalPayload → Except String (List WithdrawalRow)
  | [] => .ok rows
  | p :: ps =>
    match withdrawalRowOfBatch p now with
    | .error e => .error e
    | .ok r =>
      match dbInsertWithdrawal campaigns rows r with
      | .error e => .error e
      | .ok rows1 => runBatchWithdrawals campaigns now rows1 ps

/-- The badges loop of `syncBatch`. -/
def runBatchBadges (now : Nat) (rows : List BadgeRow) :
    List BadgePayload → Except String (List BadgeRow)
  | [] => .ok rows
  | p :: ps =>
    match badgeRowOfBatch p now with
    | .error e => .error e
    | .ok r => runBatchBadges now (dbUpsertBadge rows r) ps

/-- The body of the `BEGIN … COMMIT` transaction of `syncBatch`:
campaigns, then donations, then withdrawals, then badges; the first
failing statement aborts the transaction.  `sync_status` is not touched
anywhere in this handler. -/
def runBatch (st : Store) (body : BatchBody) (now : Nat) :
    Except String Store :=
  match runBatchCampaigns now st.campaigns (body.campaigns.getD []) with
  | .error e => .error e
  | .ok cs =>
    match runBatchDonations cs now st.donations (body.donations.getD []) with
    | .error e => .error e
    | .ok ds =>
      match runBatchWithdrawals cs now st.withdrawals
          (body.withdrawals.getD []) with
      | .error e => .error e
      | .ok ws =>
        match runBatchBadges now st.badges (body.badges.getD []) with
        | .error e => .error e
        | .ok bs =>
          .ok { st with campaigns := cs, donations := ds, withdrawals := ws, badges := bs }

/-- Handler for `POST /api/sync/batch`: commit on success (200),
`ROLLBACK` to the
original store on any failure (500). -/
def syncBatch (body : BatchBody) (st : Store) (now : Nat) : Nat × Store :=
  match runBatch st body now with
  | .ok st1 => (200, st1)
  | .error _ => (500, st)

/-! ### Poller (`autoSync.ts`)

Each tick fetches the four entity lists from the indexer and applies them
one item at a time, with no surrounding transaction; the fetch-and-loop
of each entity type is guarded by its own catch, so a failure in one item
keeps the writes of the earlier items and moves on to the next entity
type. -/

/-- Row the campaign upsert of the poller submits: `creatorName || ""`,
`balance || "0"`, other columns raw (`NOT NULL` rejects a missing one). -/
def campaignRowOfPoller (p : CampaignPayload) (now : Nat) :
    Except String CampaignRow :=
  match p.id, p.name, p.owner, p.targetAmount, p.creationTime with
  | some id, some name, some owner, some ta, some ct =>
    .ok { id := id, name := name,
          creatorName := some (jsOrS p.creatorName ""), owner := owner,
          balance := some (jsOrS p.balance "0"), targetAmount := ta,
          creationTime := ct, lastSyncedAt := now }
  | _, _, _, _, _ => .error "null value violates not-null constraint"

/-- Row the withdrawal insert of the poller submits: `name || ""`,
`creatorName || ""`, other columns raw. -/
def withdrawalRowOfPoller (p : WithdrawalPayload) (now : Nat) :
    Except String WithdrawalRow :=
  match p.id, p.campaignId, p.owner, p.amount, p.transactionHash,
      p.blockNumber, p.timestamp with
  | some id, some cid, some owner, some amount, some tx, some bn, some ts =>
    .ok { id := id, campaignId := cid, name := some (jsOrS p.name ""),
          owner := owner, creatorName := some (jsOrS p.creatorName ""),
          amount := amount, transactionHash := tx, blockNumber := bn,
          timestamp := ts, lastSyncedAt := now }
  | _, _, _, _, _, _, _ => .error "null value violates not-null constraint"

/-- One poller campaign item: build the row, upsert (no `owner` update). -/
def pollCampaignItem (now : Nat) (st : Store) (p : CampaignPayload) :
    Except String Store :=
  match campaignRowOfPoller p now with
  | .error e => .error e
  | .ok r => .ok { st with campaigns := dbUpsertCampaignPoller st.campaigns r }

/-- One poller donation item: build the row, insert-if-absent. -/
def pollDonationItem (now : Nat) (st : Store) (p : DonationPayload) :
    Except String Store :=
  match donationRowOfBatch p now with
  | .error e => .error e
  | .ok r =>
    match dbInsertDonation st.campaigns st.donations r with
    | .error e => .error e
    | .ok rows => .ok { st with donations := rows }

/-- One poller badge item: build the row, upsert owner. -/
def pollBadgeItem (now : Nat) (st : Store) (p : BadgePayload) :
    Except String Store :=
  match badgeRowOfBatch p now with
  | .error e => .error e
  | .ok r => .ok { st with badges := dbUpsertBadge st.badges r }

/-- One poller withdrawal item: build the row, insert-if-absent. -/
def pollWithdrawalItem (now : Nat) (st : Store) (p : WithdrawalPayload) :
    Except String Store :=
  match withdrawalRowOfPoller p now with
  | .error e => .error e
  | .ok r =>
    match dbInsertWithdrawal st.campaigns st.withdrawals r with
    | .error e => .error e
    | .ok rows => .ok { st with withdrawals := rows }

/-- Apply items in order; the first failing item throws to the
entity-level catch, keeping the writes already made (no transaction). -/
def runPollItems {α : Type} (f : Store → α → Except String Store) :
    Store → List α → Store
  | st, [] => st
  | st, x :: xs =>
    match f st x with
    | .ok st1 => runPollItems f st1 xs
    | .error _ => st

/-- One entity type inside a tick: a failed fetch is caught and leaves the
store untouched; otherwise the item loop runs. -/
def pollEntity {α : Type} (f : Store → α → Except String Store) (st : Store)
    (fetch : Except String (List α)) : Store :=
  match fetch with
  | .error _ => st
  | .ok items => runPollItems f st items

/-- External inputs of one `syncFromPonder` invocation: whether acquiring
the pool connection succeeds, and the four indexer query results. -/
structure PollEnv where
  connectOk : Bool
  campaigns : Except String (List CampaignPayload)
  donations : Except String (List DonationPayload)
  badges : Except String (List BadgePayload)
  withdrawals : Except String (List WithdrawalPayload)

/-- Module state of `autoSync.ts`: the `isRunning` single-flight flag plus
the store it writes. -/
structure PollerState where
  isRunning : Bool
  store : Store
  deriving Repr, DecidableEq

/-- Tick body `syncFromPonder`: skip the whole tick when `isRunning` is
set; else
set the flag, acquire a connection (`pool.connect()` precedes the
`try`/`finally`, so a connect failure leaves the flag set), process
campaigns, donations, badges, withdrawals in that order, and clear the
flag in `finally`. -/
def syncFromPonder (env : PollEnv) (now : Nat) (ps : PollerState) :
    PollerState :=
  if ps.isRunning then ps
  else if !env.connectOk then { ps with isRunning := true }
  else
    let st1 := pollEntity (pollCampaignItem now) ps.store env.campaigns
    let st2 := pollEntity (pollDonationItem now) st1 env.donations
    let st3 := pollEntity (pollBadgeItem now) st2 env.badges
    let st4 := pollEntity (pollWithdrawalItem now) st3 env.withdrawals
    { isRunning := false, store := st4 }

/-! ### Chain Writer (`mintAndDonateIDRX` in `contributionController.ts`)

The three-step mint → approve → donate sequence.  Each step is an
external chain interaction whose outcome is supplied as an `Except`: a
confirmed receipt or a thrown chain error.  The returned receipt list is
the set of transactions this invocation confirmed on-chain; confirmed
steps stay confirmed when a later step fails. -/

/-- A confirmed transaction: hash and block number of the receipt. -/
structure TxReceipt where
  hash : String
  blockNumber : Nat
  deriving Repr, DecidableEq

/-- A thrown chain error: optional `err.code` plus `err.message`. -/
structure ChainErr where
  code : Option String
  message : String
  deriving Repr, DecidableEq

/-- Chain-side inputs of one mint-and-donate invocation: the outcome of
each of the three transaction submissions, and the configured contract
addresses. -/
structure ChainEnv where
  mintStep : Except ChainErr TxReceipt
  approveStep : Except ChainErr TxReceipt
  donateStep : Except ChainErr TxReceipt
  idrxAddress : String
  campaignAddress : String

/-- The `data` object of a successful mint-and-donate result. -/
structure MintDonateData where
  mintTxHash : String
  approveTxHash : String
  donateTxHash : String
  blockNumber : Nat
  amount : Nat
  campaignId : Nat
  idrxAddress : String
  campaignAddress : String
  deriving Repr, DecidableEq

/-- Result of `mintAndDonateIDRX`: `{success:true, data}` or
`{success:false, message, error?}` where the optional `error` string is
the failure classification tag. -/
inductive MintDonateResult where
  | ok (data : MintDonateData)
  | fail (message : String) (errorTag : Option String)
  deriving Repr, DecidableEq

/-- Nonce test `err.code === NONCE_EXPIRED || err.message?.includes(nonce)`
of the catch block. -/
def isNonceError (e : ChainErr) : Bool :=
  e.code == some "NONCE_EXPIRED" || strIncl "nonce" e.message

/-- The catch block of `mintAndDonateIDRX`: nonce conflicts first, then
`CampaignNotFound`, then the raw message. -/
def classifyChainError (campaignId : Nat) (e : ChainErr) : MintDonateResult :=
  if isNonceError e then
    .fail "Transaction nonce conflict. Please try again in a few seconds."
      (some "NONCE_ERROR")
  else if strIncl "CampaignNotFound" e.message then
    .fail ("Campaign #" ++ toString campaignId ++
      " does not exist on blockchain") (some "CAMPAIGN_NOT_FOUND")
  else .fail e.message none

/-- Sequence `mintAndDonateIDRX(amount, campaignId)`: reject a falsy
amount, then
run mint, approve, donate strictly in order, stopping at the first step
whose submission or confirmation throws; the second component lists the
receipts confirmed by this invocation (never removed by later
failures). -/
def mintAndDonateIDRX (env : ChainEnv) (amount campaignId : Nat) :
    MintDonateResult × List TxReceipt :=
  if amount == 0 then (.fail "Amount and campaignId are required" none, [])
  else
    match env.mintStep with
    | .error e => (classifyChainError campaignId e, [])
    | .ok mintTx =>
      match env.approveStep with
      | .error e => (classifyChainError campaignId e, [mintTx])
      | .ok approveTx =>
        match env.donateStep with
        | .error e => (classifyChainError campaignId e, [mintTx, approveTx])
        | .ok donateTx =>
          (.ok { mintTxHash := mintTx.hash, approveTxHash := approveTx.hash,
                 donateTxHash := donateTx.hash,
                 blockNumber := donateTx.blockNumber, amount := amount,
                 campaignId := campaignId, idrxAddress := env.idrxAddress,
                 campaignAddress := env.campaignAddress },
           [mintTx, approveTx, donateTx])

/-! ### QRIS settlement confirmation (`getQRISStatus`) -/

/-- The fields of the Midtrans status response the handler reads.  The
gross amount (`parseFloat(response.data.gross_amount)`) is modelled for
the whole-rupiah amounts the payment flow produces. -/
structure MidtransResp where
  transactionStatus : String
  orderId : String
  grossAmount : Nat
  deriving Repr, DecidableEq

/-- Component `orderParts[1]` of `order_id.split("-")`: absent when there
is no
second component. -/
def secondPart (s : String) : Option String :=
  match splitOnChar '-' s.toList with
  | _ :: p :: _ => some (String.mk p)
  | _ => none

/-- Lower-casing of an address string (`String.prototype.toLowerCase`). -/
def strLower (s : String) : String :=
  String.mk (s.toList.map Char.toLower)

/-- Plain `INSERT INTO blockchain_donations` (no `ON CONFLICT` clause):
a duplicate id or a dangling campaign reference throws. -/
def dbInsertDonationPlain (campaigns : List CampaignRow)
    (rows : List DonationRow) (r : DonationRow) :
    Except String (List DonationRow) :=
  if rows.any fun old => old.id == r.id then
    .error "duplicate key value violates unique constraint"
  else if campaigns.any fun c => c.id == r.campaignId then .ok (rows ++ [r])
  else .error "violates foreign key constraint"

/-- Outcome of `POST /api/contribution/qris-status/:orderId`. -/
inductive QRISOutcome where
  | alreadyProcessed (row : DonationRow)
  | notSettled (status : String)
  | invalidOrder
  | campaignMissing
  | mintFailed (message : String)
  | processed (donationId : String) (data : MintDonateData)
  deriving Repr, DecidableEq

/-- The donation row the settlement path inserts: synthetic id
`qris-{order_id}`, the campaign contract address (lower-cased) as donor,
the minted amount in IDRX base units (2 decimals), the hash and block of
the donate receipt, plus the QRIS correlation fields. -/
def qrisDonationRow (resp : MidtransResp) (cid : Nat) (data : MintDonateData)
    (now : Nat) : DonationRow where
  id := "qris-" ++ resp.orderId
  campaignId := cid
  donor := strLower data.campaignAddress
  amount := toString (resp.grossAmount * 100)
  transactionHash := if data.donateTxHash == "" then "pending"
    else data.donateTxHash
  blockNumber := data.blockNumber
  timestamp := now
  lastSyncedAt := now
  paymentMethod := some "QRIS"
  qrisOrderId := some resp.orderId
  qrisGrossAmount := some resp.grossAmount

/-- Handler `getQRISStatus`: first the anti-replay lookup
(`WHERE id LIKE` on the qris-orderId pattern) — a hit returns the stored
record
without contacting Midtrans or the chain; otherwise, on a settled
payment, parse the campaign id out of the order id, require the campaign
row, run the chain writer, and record the synthetic donation (an insert
failure is caught and ignored).  The third component counts chain-writer
invocations. -/
def getQRISStatus (orderId : String) (resp : MidtransResp) (env : ChainEnv)
    (st : Store) (now : Nat) : QRISOutcome × Store × Nat :=
  match st.donations.find? fun d => strHasPre ("qris-" ++ orderId) d.id with
  | some row => (.alreadyProcessed row, st, 0)
  | none =>
    if resp.transactionStatus == "settlement" then
      match jsParseInt (secondPart resp.orderId) with
      | none => (.invalidOrder, st, 0)
      | some cid =>
        if st.campaigns.any fun c => c.id == cid then
          match mintAndDonateIDRX env resp.grossAmount cid with
          | (.fail msg _, _) => (.mintFailed msg, st, 1)
          | (.ok data, _) =>
            let row := qrisDonationRow resp cid data now
            match dbInsertDonationPlain st.campaigns st.donations row with
            | .ok rows =>
              (.processed row.id data, { st with donations := rows }, 1)
            | .error _ => (.processed row.id data, st, 1)
        else (.campaignMissing, st, 0)
    else (.notSettled resp.transactionStatus, st, 0)

/-! ### Lookup helpers and support lemmas -/

/-- Campaign row by id, as the `WHERE id = $1` queries read it. -/
def findCampaign (rows : List CampaignRow) (id : Nat) : Option CampaignRow :=
  rows.find? fun c => c.id == id

/-- Donation row by id. -/
def findDonation (rows : List DonationRow) (id : String) : Option DonationRow :=
  rows.find? fun d => d.id == id

/-- Badge row by token id. -/
def findBadge (rows : List BadgeRow) (t : Nat) : Option BadgeRow :=
  rows.find? fun b => b.tokenId == t

theorem listHasPre_refl (l : List Char) : listHasPre l l = true := by
  induction l with
  | nil => rfl
  | cons c cs ih => simp [listHasPre, ih]

theorem find?_map_comm {α : Type} (upd : α → α) (q : α → Bool)
    (h : ∀ x, q (upd x) = q x) :
    ∀ l : List α, (l.map upd).find? q = (l.find? q).map upd := by
  intro l
  induction l with
  | nil => rfl
  | cons a as ih =>
    simp only [List.map_cons, List.find?_cons, h a]
    cases hqa : q a <;> simp [ih]

theorem any_eq_false_of_find?_eq_none {α : Type} {q : α → Bool}
    {l : List α} (h : l.find? q = none) : l.any q = false := by
  rw [Bool.eq_false_iff]
  intro hany
  obtain ⟨x, hx, hqx⟩ := List.any_eq_true.mp hany
  exact (List.find?_eq_none.mp h x hx) hqx

theorem find?_eq_none_of_any_eq_false {α : Type} {q : α → Bool}
    {l : List α} (h : l.any q = false) : l.find? q = none := by
  rw [List.find?_eq_none]
  intro x hx hqx
  rw [Bool.eq_false_iff] at h
  exact h (List.any_eq_true.mpr ⟨x, hx, hqx⟩)

/-- The ledger row after `updateSyncStatus`: block watermark replaced by
the supplied value when present (`COALESCE`), attempt counter bumped. -/
theorem findStatus_update (rows : List SyncStatusRow) (et : String)
    (bn : Option Nat) (now : Nat) (r : SyncStatusRow)
    (h : findStatus rows et = some r) :
    findStatus (updateSyncStatus rows et bn now) et =
      some { r with lastBlockNumber := bn.getD r.lastBlockNumber,
                    lastSyncedAt := now, totalSynced := r.totalSynced + 1,
                    status := "healthy", errorMessage := none } := by
  have h' : List.find? (fun x => x.entityType == et) rows = some r := h
  have hr := List.find?_some h'
  unfold findStatus updateSyncStatus
  rw [find?_map_comm _ _ ?_]
  · rw [h']
    simp only [Option.map]
    rw [if_pos hr]
  · intro x
    by_cases hx : (x.entityType == et) = true <;> simp [hx]

end CrowdfundBE

namespace CrowdfundBE

/-! ### Claim theorems -/

/-- C10: at the donation webhook, a payload whose `blockNumber` is `0`,
whose `timestamp` is `0`, or whose `amount` is the empty string is
rejected as "Missing required fields" with no store write, even when
every required field is present: the truthiness check treats falsy values
as absent. -/
theorem donation_zero_fields_rejected (p : DonationPayload) (st : Store)
    (now : Nat)
    (hall : p.id.isSome ∧ p.campaignId.isSome ∧ p.donor.isSome ∧
      p.amount.isSome ∧ p.transactionHash.isSome ∧ p.blockNumber.isSome ∧
      p.timestamp.isSome)
    (hzero : p.blockNumber = some 0 ∨ p.timestamp = some 0 ∨
      p.amount = some "") :
    syncDonation p st now = (⟨400, "Missing required fields"⟩, st) := by
  have hmiss : donationMissingFields p = true := by
    rcases hzero with h | h | h <;>
      simp [donationMissingFields, jsFalsyN, jsFalsyS, h]
  simp [syncDonation, hmiss]

theorem donation_zero_fields_rejected_witness :
    syncDonation
      ⟨some "d1", some 7, some "0xabc", some "10000", some "0x123",
        some 0, some 1700000000⟩
      ⟨[], [], [], [], []⟩ 5 =
      (⟨400, "Missing required fields"⟩, ⟨[], [], [], [], []⟩) :=
  donation_zero_fields_rejected _ _ _ (by decide) (Or.inl rfl)

/-- C3 (amended): when a block number is supplied, `updateSyncStatus`
stores the supplied value unconditionally (`COALESCE(supplied, current)`),
so the watermark can regress; when none is supplied it is unchanged.  In
both cases last-synced-at is set and total-synced incremented. -/
theorem syncStatus_block_overwrite (rows : List SyncStatusRow) (et : String)
    (bn now : Nat) (r : SyncStatusRow) (h : findStatus rows et = some r) :
    findStatus (updateSyncStatus rows et (some bn) now) et =
      some { r with lastBlockNumber := bn, lastSyncedAt := now,
                    totalSynced := r.totalSynced + 1, status := "healthy",
                    errorMessage := none } ∧
    findStatus (updateSyncStatus rows et none now) et =
      some { r with lastSyncedAt := now, totalSynced := r.totalSynced + 1,
                    status := "healthy", errorMessage := none } := by
  refine ⟨?_, ?_⟩ <;> simpa using findStatus_update rows et _ now r h

theorem syncStatus_block_overwrite_witness :
    findStatus (updateSyncStatus
        [⟨"donation", 100, 0, 3, "healthy", none⟩] "donation" (some 50) 1)
      "donation" = some ⟨"donation", 50, 1, 4, "healthy", none⟩ :=
  (syncStatus_block_overwrite
    [⟨"donation", 100, 0, 3, "healthy", none⟩] "donation" 50 1
    ⟨"donation", 100, 0, 3, "healthy", none⟩ (by decide)).1

/-- C3 counterexample: with a stored watermark of 100, supplying block
number 50 leaves 50 in the ledger, not `max 100 50`: the update can
regress the watermark, contradicting the claimed `max` semantics. -/
theorem syncStatus_watermark_regress_cex :
    (findStatus (updateSyncStatus
        [⟨"donation", 100, 0, 0, "healthy", none⟩] "donation" (some 50) 1)
      "donation").map SyncStatusRow.lastBlockNumber = some 50 ∧
    (50 : Nat) ≠ max 100 50 := by decide

/-- C2: inserting a donation id twice leaves exactly one row for that id,
holding the content of the first insert; the second call (identical or
different payload, same id) reports 200 and leaves the donations table
unchanged — insert-if-absent, never an update. -/
theorem donation_insert_idempotent
    (p1 p2 : DonationPayload) (st : Store) (now1 now2 : Nat)
    (h1 : donationMissingFields p1 = false)
    (h2 : donationMissingFields p2 = false)
    (hid : p2.id = p1.id)
    (habs : st.donations.any
      (fun d => d.id == (donationRowOfWebhook p1 now1).id) = false)
    (hfk : st.campaigns.any
      (fun c => c.id == (donationRowOfWebhook p1 now1).campaignId) = true) :
    (syncDonation p1 st now1).1.status = 200 ∧
    (syncDonation p1 st now1).2.donations =
      st.donations ++ [donationRowOfWebhook p1 now1] ∧
    (syncDonation p2 (syncDonation p1 st now1).2 now2).1.status = 200 ∧
    (syncDonation p2 (syncDonation p1 st now1).2 now2).2.donations =
      st.donations ++ [donationRowOfWebhook p1 now1] ∧
    findDonation
      (syncDonation p2 (syncDonation p1 st now1).2 now2).2.donations
      (donationRowOfWebhook p1 now1).id =
      some (donationRowOfWebhook p1 now1) := by
  have hins1 : dbInsertDonation st.campaigns st.donations
      (donationRowOfWebhook p1 now1) =
      .ok (st.donations ++ [donationRowOfWebhook p1 now1]) := by
    simp [dbInsertDonation, habs, hfk]
  have hrun1 : syncDonation p1 st now1 =
      (⟨200, "Donation synced successfully"⟩,
        { st with
          donations := st.donations ++ [donationRowOfWebhook p1 now1],
          syncStatus := updateSyncStatus st.syncStatus "donation"
            p1.blockNumber now1 }) := by
    simp [syncDonation, h1, hins1]
  have hid2 : (donationRowOfWebhook p2 now2).id =
      (donationRowOfWebhook p1 now1).id := by
    simp [donationRowOfWebhook, hid]
  have hins2 : dbInsertDonation st.campaigns
      (st.donations ++ [donationRowOfWebhook p1 now1])
      (donationRowOfWebhook p2 now2) =
      .ok (st.donations ++ [donationRowOfWebhook p1 now1]) := by
    have : ((st.donations ++ [donationRowOfWebhook p1 now1]).any
        fun d => d.id == (donationRowOfWebhook p2 now2).id) = true := by
      rw [List.any_append]
      simp [hid2]
    simp [dbInsertDonation, this]
  have hfind : findDonation
      (st.donations ++ [donationRowOfWebhook p1 now1])
      (donationRowOfWebhook p1 now1).id =
      some (donationRowOfWebhook p1 now1) := by
    unfold findDonation
    rw [List.find?_append, find?_eq_none_of_any_eq_false habs]
    simp [List.find?]
  rw [hrun1]
  refine ⟨rfl, rfl, ?_, ?_, ?_⟩ <;> simp [syncDonation, h2, hins2, hfind]

theorem donation_insert_idempotent_witness :
    (syncDonation ⟨some "d1", some 7, some "0xabc", some "10000",
        some "0x123", some 100, some 1700000000⟩
      ⟨[⟨7, "camp", some "c", "0xowner", some "0", "500", 2, 0⟩],
        [], [], [],
        [⟨"donation", 0, 0, 0, "healthy", none⟩]⟩ 1).2.donations =
      [⟨"d1", 7, "0xabc", "10000", "0x123", 100, 1700000000, 1,
        none, none, none⟩] ∧
    (syncDonation ⟨some "d1", some 7, some "0xother", some "999",
        some "0x999", some 200, some 1800000000⟩
      (syncDonation ⟨some "d1", some 7, some "0xabc", some "10000",
          some "0x123", some 100, some 1700000000⟩
        ⟨[⟨7, "camp", some "c", "0xowner", some "0", "500", 2, 0⟩],
          [], [], [],
          [⟨"donation", 0, 0, 0, "healthy", none⟩]⟩ 1).2 2).2.donations =
      [⟨"d1", 7, "0xabc", "10000", "0x123", 100, 1700000000, 1,
        none, none, none⟩] := by
  have h := donation_insert_idempotent
    ⟨some "d1", some 7, some "0xabc", some "10000", some "0x123",
      some 100, some 1700000000⟩
    ⟨some "d1", some 7, some "0xother", some "999", some "0x999",
      some 200, some 1800000000⟩
    ⟨[⟨7, "camp", some "c", "0xowner", some "0", "500", 2, 0⟩],
      [], [], [], [⟨"donation", 0, 0, 0, "healthy", none⟩]⟩
    1 2 (by decide) (by decide) rfl (by decide) (by decide)
  exact ⟨h.2.1, h.2.2.2.1⟩

/-- C6: when the badge token id is already present, the upsert changes
only `owner` and `last_synced_at`: upserting name "A" then name "B" for
the same token leaves name "A" stored (with the original mint tx
hash, block and timestamp) while the owner is updated; in general any
upsert over an existing token row touches no identity field. -/
theorem badge_identity_immutable (rows : List BadgeRow) (r1 r2 : BadgeRow)
    (habs : rows.any (fun b => b.tokenId == r1.tokenId) = false)
    (ht : r2.tokenId = r1.tokenId) :
    findBadge (dbUpsertBadge (dbUpsertBadge rows r1) r2) r1.tokenId =
      some { r1 with owner := r2.owner, lastSyncedAt := r2.lastSyncedAt } ∧
    (∀ rows2 old, findBadge rows2 r2.tokenId = some old →
      findBadge (dbUpsertBadge rows2 r2) r2.tokenId =
        some { old with owner := r2.owner,
                        lastSyncedAt := r2.lastSyncedAt }) := by
  have main : ∀ rows2 old, findBadge rows2 r2.tokenId = some old →
      findBadge (dbUpsertBadge rows2 r2) r2.tokenId =
        some { old with owner := r2.owner,
                        lastSyncedAt := r2.lastSyncedAt } := by
    intro rows2 old h
    have h' : List.find? (fun b => b.tokenId == r2.tokenId) rows2 =
        some old := h
    have hold := List.find?_some h'
    have hany : (rows2.any fun b => b.tokenId == r2.tokenId) = true :=
      List.any_eq_true.mpr ⟨old, List.mem_of_find?_eq_some h', hold⟩
    unfold dbUpsertBadge
    rw [if_pos hany]
    unfold findBadge
    rw [find?_map_comm _ _ ?_]
    · rw [h']
      simp only [Option.map]
      rw [if_pos hold]
    · intro x
      by_cases hx : (x.tokenId == r2.tokenId) = true <;> simp [hx]
  refine ⟨?_, main⟩
  have hstep1 : dbUpsertBadge rows r1 = rows ++ [r1] := by
    simp [dbUpsertBadge, habs]
  have hfind1 : findBadge (rows ++ [r1]) r2.tokenId = some r1 := by
    unfold findBadge
    rw [ht, List.find?_append, find?_eq_none_of_any_eq_false habs]
    simp [List.find?]
  rw [hstep1]
  have hm := main (rows ++ [r1]) r1 hfind1
  rwa [ht] at hm

theorem badge_identity_immutable_witness :
    findBadge (dbUpsertBadge (dbUpsertBadge []
        ⟨3, "0xfirst", "A", "0xaaa", 10, 100, 1⟩)
        ⟨3, "0xsecond", "B", "0xbbb", 20, 200, 2⟩) 3 =
      some ⟨3, "0xsecond", "A", "0xaaa", 10, 100, 2⟩ :=
  (badge_identity_immutable [] ⟨3, "0xfirst", "A", "0xaaa", 10, 100, 1⟩
    ⟨3, "0xsecond", "B", "0xbbb", 20, 200, 2⟩ (by decide) rfl).1

/-- A donation item whose row constraint fails makes the whole donations
loop of the batch transaction fail, wherever the item sits. -/
theorem runBatchDonations_err (camps : List CampaignRow) (now : Nat)
    (d : DonationPayload) (msg : String)
    (he : donationRowOfBatch d now = .error msg) :
    ∀ (l : List DonationPayload) (rows : List DonationRow), d ∈ l →
      ∃ e, runBatchDonations camps now rows l = .error e := by
  intro l
  induction l with
  | nil => intro rows hd; cases hd
  | cons p ps ih =>
    intro rows hd
    cases hd with
    | head => exact ⟨msg, by simp [runBatchDonations, he]⟩
    | tail _ hmem =>
      cases hpr : donationRowOfBatch p now with
      | error e => exact ⟨e, by simp [runBatchDonations, hpr]⟩
      | ok r =>
        cases hins : dbInsertDonation camps rows r with
        | error e => exact ⟨e, by simp [runBatchDonations, hpr, hins]⟩
        | ok rows1 =>
          obtain ⟨e, hre⟩ := ih rows1 hmem
          exact ⟨e, by simp [runBatchDonations, hpr, hins, hre]⟩

/-- C4: the batch endpoint is all-or-nothing: whenever the transaction
body fails — in particular whenever any donation item of the batch is
missing a required field, wherever it sits — the handler answers 500 and
the store (all four entity tables and the sync ledger) is exactly as
before: no item of the batch survives and `sync_status` is unchanged. -/
theorem syncBatch_all_or_nothing (st : Store) (body : BatchBody)
    (now : Nat) :
    (∀ e, runBatch st body now = .error e →
      syncBatch body st now = (500, st)) ∧
    (∀ d msg, d ∈ body.donations.getD [] →
      donationRowOfBatch d now = .error msg →
      syncBatch body st now = (500, st)) := by
  constructor
  · intro e h
    simp [syncBatch, h]
  · intro d msg hd he
    have hrb : ∃ e, runBatch st body now = .error e := by
      unfold runBatch
      cases hc : runBatchCampaigns now st.campaigns
          (body.campaigns.getD []) with
      | error e => exact ⟨e, rfl⟩
      | ok cs =>
        obtain ⟨e, hre⟩ :=
          runBatchDonations_err cs now d msg he (body.donations.getD [])
            st.donations hd
        exact ⟨e, by simp [hre]⟩
    obtain ⟨e, hrb⟩ := hrb
    simp [syncBatch, hrb]

theorem syncBatch_all_or_nothing_witness :
    syncBatch
      ⟨none,
        some [⟨some "d1", some 7, some "0xa", some "1", some "0x1",
                some 10, some 100⟩,
              ⟨some "d2", some 7, none, some "2", some "0x2",
                some 11, some 101⟩,
              ⟨some "d3", some 7, some "0xc", some "3", some "0x3",
                some 12, some 102⟩],
        none, none⟩
      ⟨[⟨7, "camp", some "c", "0xowner", some "0", "500", 2, 0⟩], [], [],
        [], [⟨"donation", 0, 0, 0, "healthy", none⟩]⟩ 1 =
      (500,
        ⟨[⟨7, "camp", some "c", "0xowner", some "0", "500", 2, 0⟩], [], [],
          [], [⟨"donation", 0, 0, 0, "healthy", none⟩]⟩) :=
  (syncBatch_all_or_nothing _ _ 1).2
    ⟨some "d2", some 7, none, some "2", some "0x2", some 11, some 101⟩
    "null value violates not-null constraint" (by decide) rfl

/-- C8 counterexample: an invocation that is not skipped but whose pool
connection acquisition fails exits with the in-progress flag still set
(`isRunning = true`): `pool.connect()` sits before the `try`/`finally`,
so this exit path does not clear the flag and every later tick will be
skipped. -/
theorem poller_flag_stuck_cex :
    (syncFromPonder ⟨false, .ok [], .ok [], .ok [], .ok []⟩ 0
      ⟨false, ⟨[], [], [], [], []⟩⟩).isRunning = true := rfl

/-- C8 (amended): the poller is single-flight: an invocation arriving
while `isRunning` is set changes nothing (no fetch results are applied,
the tick is skipped, not queued); an invocation that acquires its store
connection always ends with the flag cleared (whatever the four fetches
return); but when acquiring the connection itself fails the flag stays
set and the store is untouched. -/
theorem poller_single_flight :
    (∀ (env : PollEnv) (now : Nat) (ps : PollerState),
      ps.isRunning = true → syncFromPonder env now ps = ps) ∧
    (∀ (env : PollEnv) (now : Nat) (ps : PollerState),
      ps.isRunning = false → env.connectOk = true →
      (syncFromPonder env now ps).isRunning = false) ∧
    (∀ (env : PollEnv) (now : Nat) (ps : PollerState),
      ps.isRunning = false → env.connectOk = false →
      syncFromPonder env now ps = { ps with isRunning := true }) := by
  refine ⟨?_, ?_, ?_⟩
  · intro env now ps h1
    simp [syncFromPonder, h1]
  · intro env now ps h1 h2
    simp [syncFromPonder, h1, h2]
  · intro env now ps h1 h2
    simp [syncFromPonder, h1, h2]

theorem poller_single_flight_witness :
    syncFromPonder ⟨true, .ok [⟨some 1, some "n", some "c", some "0xa",
        some "0", some "10", some 5⟩], .ok [], .ok [], .ok []⟩ 0
      ⟨true, ⟨[], [], [], [], []⟩⟩ = ⟨true, ⟨[], [], [], [], []⟩⟩ ∧
    (syncFromPonder ⟨true, .ok [⟨some 1, some "n", some "c", some "0xa",
        some "0", some "10", some 5⟩], .ok [], .ok [], .ok []⟩ 0
      ⟨false, ⟨[], [], [], [], []⟩⟩).isRunning = false :=
  ⟨poller_single_flight.1 _ 0 _ rfl,
    poller_single_flight.2.1 _ 0 _ rfl rfl⟩

/-- Lookup after a keyed map-update: the updated row is found, with the
update applied, provided the update preserves the id. -/
theorem findCampaign_map_upd (rows : List CampaignRow) (k : Nat)
    (f : CampaignRow → CampaignRow) (hf : ∀ x, (f x).id = x.id)
    (old : CampaignRow) (h : findCampaign rows k = some old) :
    List.find? (fun c => c.id == k)
      (rows.map fun x => if x.id == k then f x else x) = some (f old) := by
  have h' : List.find? (fun c => c.id == k) rows = some old := h
  have hold := List.find?_some h'
  rw [find?_map_comm _ _ ?_]
  · rw [h']
    simp only [Option.map]
    rw [if_pos hold]
  · intro x
    by_cases hx : (x.id == k) = true
    · rw [if_pos hx, hf x]
    · rw [if_neg hx]

/-- C5 counterexample: on the batch path, upserting an existing campaign
id with a new owner answers 200 but leaves the stored owner unchanged —
the batch `ON CONFLICT` clause does not update `owner`, contradicting the
claim that every path updates it. -/
theorem campaign_owner_batch_cex :
    (syncBatch
      ⟨some [⟨some 1, some "n2", some "c2", some "0xbbb", some "1",
        some "20", some 5⟩], none, none, none⟩
      ⟨[⟨1, "n", some "c", "0xaaa", some "0", "10", 5, 0⟩], [], [], [],
        []⟩ 9).1 = 200 ∧
    (syncBatch
      ⟨some [⟨some 1, some "n2", some "c2", some "0xbbb", some "1",
        some "20", some 5⟩], none, none, none⟩
      ⟨[⟨1, "n", some "c", "0xaaa", some "0", "10", 5, 0⟩], [], [], [],
        []⟩ 9).2.campaigns.map CampaignRow.owner = ["0xaaa"] ∧
    "0xaaa" ≠ "0xbbb" := by decide

/-- C5 (amended): a campaign upsert never fails on a duplicate id and
always leaves the creation time untouched, but the updated columns differ
per path: the webhook single path updates name, creator name, owner,
balance, target amount and last-synced-at; the poller path updates the
same except `owner`; the batch path updates only name, balance, target
amount and last-synced-at (neither `owner` nor `creator_name`).  When the
id is absent every path inserts the new row. -/
theorem campaign_upsert_paths :
    (∀ (rows : List CampaignRow) (r old : CampaignRow),
      findCampaign rows r.id = some old →
      findCampaign (dbUpsertCampaignWebhook rows r) r.id =
        some { old with name := r.name, creatorName := r.creatorName,
                        owner := r.owner, balance := r.balance,
                        targetAmount := r.targetAmount,
                        lastSyncedAt := r.lastSyncedAt }) ∧
    (∀ (rows : List CampaignRow) (r old : CampaignRow),
      findCampaign rows r.id = some old →
      findCampaign (dbUpsertCampaignPoller rows r) r.id =
        some { old with name := r.name, creatorName := r.creatorName,
                        balance := r.balance,
                        targetAmount := r.targetAmount,
                        lastSyncedAt := r.lastSyncedAt }) ∧
    (∀ (rows : List CampaignRow) (r old : CampaignRow),
      findCampaign rows r.id = some old →
      findCampaign (dbUpsertCampaignBatch rows r) r.id =
        some { old with name := r.name, balance := r.balance,
                        targetAmount := r.targetAmount,
                        lastSyncedAt := r.lastSyncedAt }) ∧
    (∀ (rows : List CampaignRow) (r : CampaignRow),
      (rows.any fun c => c.id == r.id) = false →
      dbUpsertCampaignWebhook rows r = rows ++ [r] ∧
      dbUpsertCampaignPoller rows r = rows ++ [r] ∧
      dbUpsertCampaignBatch rows r = rows ++ [r]) ∧
    (∀ (p : CampaignPayload) (st : Store) (now : Nat),
      campaignMissingFields p = false →
      (syncCampaign p st now).1.status = 200) := by
  have hany : ∀ (rows : List CampaignRow) (k : Nat) (old : CampaignRow),
      findCampaign rows k = some old →
      (rows.any fun c => c.id == k) = true := by
    intro rows k old h
    have h' : List.find? (fun c => c.id == k) rows = some old := h
    have hold := List.find?_some h'
    exact List.any_eq_true.mpr ⟨old, List.mem_of_find?_eq_some h', hold⟩
  refine ⟨?_, ?_, ?_, ?_, ?_⟩
  · intro rows r old h
    unfold dbUpsertCampaignWebhook
    rw [if_pos (hany rows r.id old h)]
    exact findCampaign_map_upd rows r.id
      (fun x => { x with name := r.name, creatorName := r.creatorName,
                         owner := r.owner, balance := r.balance,
                         targetAmount := r.targetAmount,
                         lastSyncedAt := r.lastSyncedAt })
      (fun x => rfl) old h
  · intro rows r old h
    unfold dbUpsertCampaignPoller
    rw [if_pos (hany rows r.id old h)]
    exact findCampaign_map_upd rows r.id
      (fun x => { x with name := r.name, creatorName := r.creatorName,
                         balance := r.balance,
                         targetAmount := r.targetAmount,
                         lastSyncedAt := r.lastSyncedAt })
      (fun x => rfl) old h
  · intro rows r old h
    unfold dbUpsertCampaignBatch
    rw [if_pos (hany rows r.id old h)]
    exact findCampaign_map_upd rows r.id
      (fun x => { x with name := r.name, balance := r.balance,
                         targetAmount := r.targetAmount,
                         lastSyncedAt := r.lastSyncedAt })
      (fun x => rfl) old h
  · intro rows r h
    refine ⟨?_, ?_, ?_⟩ <;>
      simp [dbUpsertCampaignWebhook, dbUpsertCampaignPoller,
        dbUpsertCampaignBatch, h]
  · intro p st now h
    simp [syncCampaign, h]

theorem campaign_upsert_paths_witness :
    findCampaign (dbUpsertCampaignWebhook
        [⟨1, "n", some "c", "0xaaa", some "0", "10", 5, 0⟩]
        ⟨1, "n2", some "c2", "0xbbb", some "1", "20", 99, 9⟩) 1 =
      some ⟨1, "n2", some "c2", "0xbbb", some "1", "20", 5, 9⟩ ∧
    findCampaign (dbUpsertCampaignBatch
        [⟨1, "n", some "c", "0xaaa", some "0", "10", 5, 0⟩]
        ⟨1, "n2", some "c2", "0xbbb", some "1", "20", 99, 9⟩) 1 =
      some ⟨1, "n2", some "c", "0xaaa", some "1", "20", 5, 9⟩ :=
  ⟨campaign_upsert_paths.1
      [⟨1, "n", some "c", "0xaaa", some "0", "10", 5, 0⟩]
      ⟨1, "n2", some "c2", "0xbbb", some "1", "20", 99, 9⟩
      ⟨1, "n", some "c", "0xaaa", some "0", "10", 5, 0⟩ (by decide),
    campaign_upsert_paths.2.2.1
      [⟨1, "n", some "c", "0xaaa", some "0", "10", 5, 0⟩]
      ⟨1, "n2", some "c2", "0xbbb", some "1", "20", 99, 9⟩
      ⟨1, "n", some "c", "0xaaa", some "0", "10", 5, 0⟩ (by decide)⟩

/-- C1: the settlement-confirmation path never runs the mint → approve →
donate sequence twice for one payment order id.  (a) If a donation whose
id starts with `qris-{orderId}` already exists when the handler starts,
it returns that record with zero chain-writer invocations and an
unchanged store.  (b) On a fresh settled order whose chain sequence
succeeds, the handler runs the chain writer exactly once and records the
synthetic donation; any subsequent call for the same order id (whatever
the payment provider then answers) performs zero chain-writer invocations
and returns the recorded donation — one mint per order id in total. -/
theorem qris_settlement_single_mint :
    (∀ (orderId : String) (resp : MidtransResp) (env : ChainEnv)
      (st : Store) (now : Nat) (row : DonationRow),
      st.donations.find?
        (fun d => strHasPre ("qris-" ++ orderId) d.id) = some row →
      getQRISStatus orderId resp env st now =
        (.alreadyProcessed row, st, 0)) ∧
    (∀ (orderId : String) (resp : MidtransResp) (env : ChainEnv)
      (st : Store) (now : Nat) (data : MintDonateData)
      (rs : List TxReceipt) (cid : Nat),
      st.donations.find?
        (fun d => strHasPre ("qris-" ++ orderId) d.id) = none →
      resp.transactionStatus = "settlement" →
      resp.orderId = orderId →
      jsParseInt (secondPart resp.orderId) = some cid →
      (st.campaigns.any fun c => c.id == cid) = true →
      mintAndDonateIDRX env resp.grossAmount cid = (.ok data, rs) →
      (getQRISStatus orderId resp env st now).2.2 = 1 ∧
      (getQRISStatus orderId resp env st now).2.1.donations =
        st.donations ++ [qrisDonationRow resp cid data now] ∧
      (∀ (resp2 : MidtransResp) (env2 : ChainEnv) (now2 : Nat),
        getQRISStatus orderId resp2 env2
            (getQRISStatus orderId resp env st now).2.1 now2 =
          (.alreadyProcessed (qrisDonationRow resp cid data now),
            (getQRISStatus orderId resp env st now).2.1, 0))) := by
  constructor
  · intro orderId resp env st now row h
    simp [getQRISStatus, h]
  · intro orderId resp env st now data rs cid hnone hset hoid hcid hcamp
      hchain
    have hset2 : (resp.transactionStatus == "settlement") = true := by
      simp [hset]
    have hrowid : (qrisDonationRow resp cid data now).id =
        "qris-" ++ resp.orderId := rfl
    have hpre : strHasPre ("qris-" ++ orderId)
        ((qrisDonationRow resp cid data now).id) = true := by
      rw [hrowid, hoid]
      unfold strHasPre
      exact listHasPre_refl _
    have habs : (st.donations.any
        fun d => d.id == (qrisDonationRow resp cid data now).id) = false := by
      rw [Bool.eq_false_iff]
      intro hany
      obtain ⟨d, hd, hdq⟩ := List.any_eq_true.mp hany
      have hde : d.id = (qrisDonationRow resp cid data now).id :=
        eq_of_beq hdq
      apply List.find?_eq_none.mp hnone d hd
      rw [hde]
      exact hpre
    have hrowcid : (qrisDonationRow resp cid data now).campaignId = cid :=
      rfl
    have hins : dbInsertDonationPlain st.campaigns st.donations
        (qrisDonationRow resp cid data now) =
        .ok (st.donations ++ [qrisDonationRow resp cid data now]) := by
      unfold dbInsertDonationPlain
      rw [habs, hrowcid, hcamp]
      simp
    have hcall1 : getQRISStatus orderId resp env st now =
        (.processed (qrisDonationRow resp cid data now).id data,
          { st with donations :=
              st.donations ++ [qrisDonationRow resp cid data now] }, 1) := by
      simp [getQRISStatus, hnone, hset2, hcid, hcamp, hchain, hins]
    refine ⟨by rw [hcall1], by rw [hcall1], ?_⟩
    intro resp2 env2 now2
    rw [hcall1]
    have hfind2 : (st.donations ++
        [qrisDonationRow resp cid data now]).find?
        (fun d => strHasPre ("qris-" ++ orderId) d.id) =
        some (qrisDonationRow resp cid data now) := by
      rw [List.find?_append, hnone]
      simp [List.find?, hpre]
    simp [getQRISStatus, hfind2]

theorem qris_settlement_single_mint_witness :
    (getQRISStatus "qris-7-111" ⟨"settlement", "qris-7-111", 10000⟩
      ⟨.ok ⟨"0xm", 50⟩, .ok ⟨"0xa", 51⟩, .ok ⟨"0xd", 52⟩, "0xidrx",
        "0xCAMP"⟩
      ⟨[⟨7, "camp", some "c", "0xowner", some "0", "500", 2, 0⟩], [], [],
        [], []⟩ 5).2.2 = 1 ∧
    getQRISStatus "qris-7-111" ⟨"settlement", "qris-7-111", 10000⟩
      ⟨.ok ⟨"0xm", 50⟩, .ok ⟨"0xa", 51⟩, .ok ⟨"0xd", 52⟩, "0xidrx",
        "0xCAMP"⟩
      ((getQRISStatus "qris-7-111" ⟨"settlement", "qris-7-111", 10000⟩
        ⟨.ok ⟨"0xm", 50⟩, .ok ⟨"0xa", 51⟩, .ok ⟨"0xd", 52⟩, "0xidrx",
          "0xCAMP"⟩
        ⟨[⟨7, "camp", some "c", "0xowner", some "0", "500", 2, 0⟩], [],
          [], [], []⟩ 5).2.1) 6 =
      (.alreadyProcessed (qrisDonationRow
          ⟨"settlement", "qris-7-111", 10000⟩ 7
          ⟨"0xm", "0xa", "0xd", 52, 10000, 7, "0xidrx", "0xCAMP"⟩ 5),
        (getQRISStatus "qris-7-111" ⟨"settlement", "qris-7-111", 10000⟩
          ⟨.ok ⟨"0xm", 50⟩, .ok ⟨"0xa", 51⟩, .ok ⟨"0xd", 52⟩, "0xidrx",
            "0xCAMP"⟩
          ⟨[⟨7, "camp", some "c", "0xowner", some "0", "500", 2, 0⟩], [],
            [], [], []⟩ 5).2.1, 0) := by
  have h := qris_settlement_single_mint.2 "qris-7-111"
    ⟨"settlement", "qris-7-111", 10000⟩
    ⟨.ok ⟨"0xm", 50⟩, .ok ⟨"0xa", 51⟩, .ok ⟨"0xd", 52⟩, "0xidrx",
      "0xCAMP"⟩
    ⟨[⟨7, "camp", some "c", "0xowner", some "0", "500", 2, 0⟩], [], [],
      [], []⟩ 5
    ⟨"0xm", "0xa", "0xd", 52, 10000, 7, "0xidrx", "0xCAMP"⟩
    [⟨"0xm", 50⟩, ⟨"0xa", 51⟩, ⟨"0xd", 52⟩] 7
    rfl rfl rfl (by decide) (by decide) (by decide)
  exact ⟨h.1, h.2.2 ⟨"settlement", "qris-7-111", 10000⟩
    ⟨.ok ⟨"0xm", 50⟩, .ok ⟨"0xa", 51⟩, .ok ⟨"0xd", 52⟩, "0xidrx",
      "0xCAMP"⟩ 6⟩

end CrowdfundBE
